import Mathlib

/-!
Shallow embedding of the ROI construction module `plantcv/plantcv/roi/roi_methods.py`
(functions `from_binary_image`, `rectangle`, `circle`, `ellipse`, `_draw_roi`, `multi`).

The process-wide parameter context `plantcv.params` is threaded explicitly: every
builder takes the context and returns the updated context together with either its
result or the error raised (`fatal_error` aborts the call; the exception escapes, so
the mutations performed before the raise persist, which the explicit state captures).

External collaborators (OpenCV / numpy primitives) are modelled from the spec where
the source delegates to them; each such definition carries a doc comment starting
with `Modelled from the spec:`.
-/

namespace Roi

/-- A 2-D point with signed integer coordinates (OpenCV contour points are int32),
written (x, y) = (column, row). -/
abbrev Point := Int × Int

/-- One hierarchy record: (next sibling, previous sibling, first child, parent),
with -1 denoting none. -/
abbrev Hier4 := Int × Int × Int × Int

/-- The two active debug modes of the parameter context ("print" / "plot");
`params.debug` is one of these or `None`. -/
inductive DebugMode
  | print
  | plot
deriving DecidableEq

/-- The failures that abort a builder call in roi_methods.py. -/
inductive RoiError
  | notBinary      -- fatal_error "Input image is not binary!"
  | outOfBounds    -- fatal_error "The ROI extends outside of the image!"
  | badConfig      -- fatal_error in multi: inputs match neither placement mode
  | noneSubscript  -- TypeError: multi grid mode subscripts spacing=None
  | nameErr        -- NameError: multi draws roi_contour1 after zero placements
deriving DecidableEq

/-- Decidable equality for `multi`'s output pairs (the default product-instance
search exceeds its size limit on this nested type). -/
instance multiOutDecEq :
    DecidableEq (List (List (List Point)) × List (List Hier4)) :=
  @instDecidableEqProd _ _ inferInstance inferInstance

/-- Equality of builder outcomes is decidable (used to evaluate the embedding at
concrete inputs). -/
instance decEqExcept {ε α : Type _} [DecidableEq ε] [DecidableEq α] :
    DecidableEq (Except ε α)
  | Except.ok a, Except.ok b =>
    if h : a = b then isTrue (by rw [h]) else isFalse (by simp [h])
  | Except.ok _, Except.error _ => isFalse (by simp)
  | Except.error _, Except.ok _ => isFalse (by simp)
  | Except.error a, Except.error b =>
    if h : a = b then isTrue (by rw [h]) else isFalse (by simp [h])

/-- The process-wide parameter context `plantcv.params`: the device counter and the
debug mode. The file/plot output performed by `_draw_roi` is modelled as an event
log of (device counter at the draw, contours drawn). -/
structure Params where
  device : Nat
  debug : Option DebugMode
  drawLog : List (Nat × List (List Point))
deriving DecidableEq

/-- A grayscale raster (a numpy 2-D uint8 array): height, width, and the intensity
function, indexed `pix row col`. -/
structure Raster where
  height : Nat
  width : Nat
  pix : Nat → Nat → Nat

/-- The result type shared by the single-shape builders: a contour set and its
parallel hierarchy. -/
abbrev RoiResult := List (List Point) × List Hier4

/-- The private helper `_draw_roi`: draws the contour set on a copy of the reference
image and prints it to a device-numbered file or plots it. The visible side effect
is modelled as appending (current device counter, contours) to the draw log. -/
def draw_roi (s : Params) (roi_contour : List (List Point)) : Params :=
  { s with drawLog := s.drawLog ++ [(s.device, roi_contour)] }

/-- The guard `if params.debug is not None: _draw_roi(...)` shared by every builder. -/
def maybeDraw (s : Params) (c : List (List Point)) : Params :=
  if s.debug = none then s else draw_roi s c

/-- Modelled from the spec: `np.unique` — the distinct intensity values of a raster;
`len(np.unique(bin_img))` is `(Raster.values bin_img).length`. -/
def Raster.values (m : Raster) : List Nat :=
  ((List.range m.height).flatMap (fun y => (List.range m.width).map (fun x => m.pix y x))).dedup

/-- The nonzero pixels of a raster as (col, row) pairs, in raster order. -/
def Raster.points (m : Raster) : List (Nat × Nat) :=
  (List.range m.height).flatMap
    (fun y => ((List.range m.width).filter (fun x => m.pix y x ≠ 0)).map (fun x => (x, y)))

/-- 8-neighbourhood adjacency between two distinct pixels. -/
def near8 (p q : Nat × Nat) : Bool :=
  p ≠ q && (max p.1 q.1 - min p.1 q.1 ≤ 1) && (max p.2 q.2 - min p.2 q.2 ≤ 1)

/-- One expansion step of a pixel set inside `pts`: adjoin every pixel of `pts`
adjacent to the current set. -/
def grow (pts cur : List (Nat × Nat)) : List (Nat × Nat) :=
  cur ++ pts.filter (fun q => !cur.contains q && cur.any (fun p => near8 p q))

/-- All pixels of `pts` 8-connected to `p`: `pts.length` expansion steps reach the
fixed point. -/
def reachFrom (pts : List (Nat × Nat)) (p : Nat × Nat) : List (Nat × Nat) :=
  (grow pts)^[pts.length] [p]

/-- Worker for `components`: scan the pixels in raster order, opening a new connected
component at each pixel not already collected. -/
def componentsGo (pts : List (Nat × Nat)) :
    List (Nat × Nat) → List (Nat × Nat) → List (List (Nat × Nat))
  | [], _ => []
  | p :: rest, seen =>
    if seen.contains p then componentsGo pts rest seen
    else reachFrom pts p :: componentsGo pts rest (seen ++ reachFrom pts p)

/-- The 8-connected components of a pixel set, in raster order of first pixel. -/
def components (pts : List (Nat × Nat)) : List (List (Nat × Nat)) :=
  componentsGo pts pts []

/-- A nonzero pixel lies on a region boundary when one of its 4-neighbours is outside
the raster or has intensity zero. -/
def isBoundary (m : Raster) (p : Nat × Nat) : Bool :=
  [((p.1 : Int) + 1, (p.2 : Int)), ((p.1 : Int) - 1, (p.2 : Int)),
   ((p.1 : Int), (p.2 : Int) + 1), ((p.1 : Int), (p.2 : Int) - 1)].any
    (fun q => q.1 < 0 || q.2 < 0 || (m.width : Int) ≤ q.1 || (m.height : Int) ≤ q.2 ||
      m.pix q.2.toNat q.1.toNat = 0)

/-- Contour retrieval modes of the extraction primitive
(cv2.RETR_EXTERNAL / cv2.RETR_TREE). -/
inductive RetrMode
  | extOnly
  | tree
deriving DecidableEq

/-- Modelled from the spec: `cv2.findContours`, the external contour-extraction
primitive — takes a binary mask, returns boundary point sequences plus a parallel
nesting hierarchy (next sibling, previous sibling, first child, parent; -1 = none).
One contour is returned per connected nonzero region: its boundary pixels in raster
order. Hole boundaries and their nesting are not modelled, so both retrieval modes
return the outer boundaries; for the filled-shape masks this module rasterizes, tree
and external retrieval coincide, and no claim depends on nested contours. -/
def findContours (m : Raster) (_mode : RetrMode) : RoiResult :=
  let contours := (components m.points).map
    (fun comp => (comp.filter (fun p => isBoundary m p)).map
      (fun p => (Int.ofNat p.1, Int.ofNat p.2)))
  (contours, (List.range contours.length).map
    (fun k => (if k + 1 < contours.length then (k : Int) + 1 else -1,
               if k = 0 then (-1 : Int) else (k : Int) - 1, (-1 : Int), (-1 : Int))))

/-- `np.zeros((height, width), dtype=np.uint8)`. -/
def zeroRaster (h w : Nat) : Raster :=
  ⟨h, w, fun _ _ => 0⟩

/-- Modelled from the spec: `cv2.circle(bin_img, (x, y), r, 255, -1)` rasterizes a
filled disk of radius r centred at (x, y) onto the raster (pixels outside the raster
domain are clipped, which the finite sampling of `Raster.points` performs). -/
def drawCircle (m : Raster) (x y r : Int) : Raster :=
  { m with pix := fun py px =>
      if ((px : Int) - x) ^ 2 + ((py : Int) - y) ^ 2 ≤ r ^ 2 then 255 else m.pix py px }

/-- The ellipse builder's validation: whether any pixel of row 0, the last row,
column 0 or the last column is nonzero (`np.sum` of the four borders > 0). -/
def borderNonzero (m : Raster) : Bool :=
  ((List.range m.width).any (fun x => m.pix 0 x ≠ 0 || m.pix (m.height - 1) x ≠ 0)) ||
  ((List.range m.height).any (fun y => m.pix y 0 ≠ 0 || m.pix y (m.width - 1) ≠ 0))

/-- `from_binary_image(bin_img, img)`: increments the device counter, rejects a mask
without exactly two distinct intensity values, otherwise extracts tree-mode contours
from the mask, optionally draws, and returns the contour/hierarchy pair. -/
def from_binary_image (s : Params) (bin_img : Raster) (_img : Raster) :
    Params × Except RoiError RoiResult :=
  let s1 := { s with device := s.device + 1 }
  if bin_img.values.length ≠ 2 then (s1, Except.error RoiError.notBinary)
  else
    let p := findContours bin_img RetrMode.tree
    (maybeDraw s1 p.1, Except.ok p)

/-- `rectangle(x, y, h, w, img)`: increments the device counter, checks the bounds
`x < 0 or y < 0 or x + w > width or y + h > height`, then builds the 4-vertex contour
`[(x,y), (x,y+h-1), (x+w-1,y+h-1), (x+w-1,y)]` and the trivial hierarchy. -/
def rectangle (s : Params) (x y h w : Int) (img : Raster) :
    Params × Except RoiError RoiResult :=
  let s1 := { s with device := s.device + 1 }
  if x < 0 ∨ y < 0 ∨ x + w > (img.width : Int) ∨ y + h > (img.height : Int) then
    (s1, Except.error RoiError.outOfBounds)
  else
    let c : List (List Point) := [[(x, y), (x, y + h - 1), (x + w - 1, y + h - 1), (x + w - 1, y)]]
    (maybeDraw s1 c, Except.ok (c, [(-1, -1, -1, -1)]))

/-- `circle(x, y, r, img)`: increments the device counter, checks the bounds
`x - r < 0 or x + r > width or y - r < 0 or y + r > height`, then rasterizes the
filled disk on a zero raster of the image's shape and extracts tree-mode contours. -/
def circle (s : Params) (x y r : Int) (img : Raster) :
    Params × Except RoiError RoiResult :=
  let s1 := { s with device := s.device + 1 }
  if x - r < 0 ∨ x + r > (img.width : Int) ∨ y - r < 0 ∨ y + r > (img.height : Int) then
    (s1, Except.error RoiError.outOfBounds)
  else
    let bin := drawCircle (zeroRaster img.height img.width) x y r
    let p := findContours bin RetrMode.tree
    (maybeDraw s1 p.1, Except.ok p)

/-- `ellipse(x, y, r1, r2, angle, img)`: increments the device counter, rasterizes the
filled rotated ellipse on a zero raster of the image's shape, fails when the rasterized
mask touches any border row/column, otherwise extracts tree-mode contours. The external
rasterization `cv2.ellipse` is trigonometric, so it is taken as a parameter `ellPix`
giving the filled pixels for the ellipse parameters (modelled from the spec; no claim
depends on the exact pixels). -/
def ellipse (s : Params) (x y r1 r2 angle : Int) (img : Raster)
    (ellPix : Int → Int → Int → Int → Int → Nat → Nat → Bool) :
    Params × Except RoiError RoiResult :=
  let s1 := { s with device := s.device + 1 }
  let bin : Raster := ⟨img.height, img.width,
    fun py px => if ellPix x y r1 r2 angle py px then 255 else 0⟩
  if borderNonzero bin then (s1, Except.error RoiError.outOfBounds)
  else
    let p := findContours bin RetrMode.tree
    (maybeDraw s1 p.1, Except.ok p)

/-- The shape of `multi`'s `coord` argument: a single two-element coordinate tuple, or
a list of coordinate tuples. (`multi` dispatches on `type(coord)`.) -/
inductive CoordArg
  | tup : Int × Int → CoordArg
  | lst : List (Int × Int) → CoordArg
deriving DecidableEq

/-- Python truthiness of an optional integer: `None` and `0` are falsy. -/
def truthy : Option Int → Bool
  | none => false
  | some v => v ≠ 0

/-- The Python expression `a and b` on optional integers: `b` when `a` is truthy,
otherwise `a` itself. -/
def pyAnd (a b : Option Int) : Option Int :=
  if truthy a then b else a

/-- `range(0, n)` for a Python integer bound, as integers. -/
def intRange (n : Int) : List Int :=
  (List.range n.toNat).map (fun k => Int.ofNat k)

/-- The row-major grid of circle centres built by `multi`'s grid mode: the centre for
row i, column j is (coord.x + j*spacing.x, coord.y + i*spacing.y). -/
def gridCenters (c sp : Int × Int) (n m : Int) : List (Int × Int) :=
  (intRange n).flatMap (fun i => (intRange m).map (fun j => (c.1 + j * sp.1, c.2 + i * sp.2)))

/-- The placement loop shared by `multi`'s two modes. For each centre it calls the
`circle` builder (the result is appended to the source's `rois` list, which is never
read again, so it is dropped here; the state effects are kept), rasterizes the circle
onto the accumulated mask `bin`, appends the external-mode extraction of the
accumulated mask to the contour and hierarchy accumulators (two separate
`cv2.findContours` calls in the source), and records the tree-mode extraction of the
accumulated mask for the final debug draw. A `fatal_error` in `circle` propagates,
aborting the loop with the state as mutated so far. -/
def multiLoop (img : Raster) (radius : Int) :
    List (Int × Int) → Params → Raster → List (List (List Point)) → List (List Hier4) →
    Option (List (List Point)) →
    Params × Except RoiError (List (List (List Point)) × List (List Hier4) ×
      Option (List (List Point)))
  | [], s, _bin, rc, rh, rc1 => (s, Except.ok (rc, rh, rc1))
  | xy :: rest, s, bin, rc, rh, _rc1 =>
    match circle s xy.1 xy.2 radius img with
    | (s', Except.error e) => (s', Except.error e)
    | (s', Except.ok _indiv) =>
      let bin' := drawCircle bin xy.1 xy.2 radius
      multiLoop img radius rest s' bin'
        (rc ++ [(findContours bin' RetrMode.extOnly).1])
        (rh ++ [(findContours bin' RetrMode.extOnly).2])
        (some (findContours bin' RetrMode.tree).1)

/-- The tail of `multi` after the placement loop: restore `params.debug` to the
caller's value, then `if params.debug is not None: _draw_roi(img, roi_contour1)` —
when no placement ran, `roi_contour1` is unbound and the draw raises NameError. -/
def finishMulti (s : Params) (debug0 : Option DebugMode)
    (rc : List (List (List Point))) (rh : List (List Hier4))
    (rc1 : Option (List (List Point))) :
    Params × Except RoiError (List (List (List Point)) × List (List Hier4)) :=
  let s' := { s with debug := debug0 }
  if s'.debug = none then (s', Except.ok (rc, rh))
  else
    match rc1 with
    | none => (s', Except.error RoiError.nameErr)
    | some c1 => (draw_roi s' c1, Except.ok (rc, rh))

/-- Run the placement loop from empty accumulators and finish. -/
def runMulti (s : Params) (debug0 : Option DebugMode) (img : Raster) (radius : Int)
    (centers : List (Int × Int)) :
    Params × Except RoiError (List (List (List Point)) × List (List Hier4)) :=
  match multiLoop img radius centers s (zeroRaster img.height img.width) [] [] none with
  | (s', Except.error e) => (s', Except.error e)
  | (s', Except.ok (rc, rh, rc1)) => finishMulti s' debug0 rc rh rc1

/-- `multi(img, coord, radius, spacing, nrows, ncols)`: increments the device counter,
saves and suppresses `params.debug`, then dispatches on the shape of the inputs —
grid mode when `coord` is a tuple and `(nrows and ncols) is not None` (Python
truthiness: `nrows = 0` selects grid mode whatever `ncols` is), list mode when
`coord` is a list and `(nrows and ncols) is None`, and `fatal_error` otherwise.
Grid mode subscripts `spacing` once at least one row runs (TypeError when it is
`None`). On success the caller's debug mode is restored before the final combined
draw; on a `fatal_error` or TypeError abort the restore never runs. -/
def multi (s : Params) (img : Raster) (coord : CoordArg) (radius : Int)
    (spacing : Option (Int × Int)) (nrows ncols : Option Int) :
    Params × Except RoiError (List (List (List Point)) × List (List Hier4)) :=
  let s1 : Params := ⟨s.device + 1, s.debug, s.drawLog⟩
  let debug0 := s1.debug
  let s2 : Params := ⟨s1.device, none, s1.drawLog⟩
  match coord with
  | CoordArg.tup c =>
    if (pyAnd nrows ncols).isSome then
      if intRange (nrows.getD 0) = [] then
        runMulti s2 debug0 img radius []
      else
        match spacing with
        | none => (s2, Except.error RoiError.noneSubscript)
        | some sp => runMulti s2 debug0 img radius (gridCenters c sp (nrows.getD 0) (ncols.getD 0))
    else (s2, Except.error RoiError.badConfig)
  | CoordArg.lst l =>
    if (pyAnd nrows ncols).isSome then (s2, Except.error RoiError.badConfig)
    else runMulti s2 debug0 img radius l

/-- The valid coordinate domain `[0,width) × [0,height)` of an image, as the spec
states it. -/
def inDomain (w h : Nat) (p : Point) : Prop :=
  0 ≤ p.1 ∧ p.1 < (w : Int) ∧ 0 ≤ p.2 ∧ p.2 < (h : Int)

/-- "The bounding box of `ct` is exactly [x0,x1] × [y0,y1]": every point lies inside
it and each of its four sides is attained. -/
def bboxIs (ct : List Point) (x0 x1 y0 y1 : Int) : Prop :=
  (∀ p ∈ ct, x0 ≤ p.1 ∧ p.1 ≤ x1 ∧ y0 ≤ p.2 ∧ p.2 ≤ y1) ∧
  (∃ p ∈ ct, p.1 = x0) ∧ (∃ p ∈ ct, p.1 = x1) ∧ (∃ p ∈ ct, p.2 = y0) ∧ (∃ p ∈ ct, p.2 = y1)

/-- The claim's circle premise: the bounding box `[x-r,x+r] × [y-r,y+r]` is contained
in the valid coordinate domain `[0,width) × [0,height)`. -/
def circleBBoxInDomain (x y r : Int) (w h : Nat) : Prop :=
  0 ≤ x - r ∧ x + r < (w : Int) ∧ 0 ≤ y - r ∧ y + r < (h : Int)

instance roiResultDecEq : DecidableEq RoiResult :=
  @instDecidableEqProd _ _ inferInstance inferInstance

instance builderOutDecEq : DecidableEq (Params × Except RoiError RoiResult) :=
  @instDecidableEqProd _ _ inferInstance inferInstance

instance decInDomain (w h : Nat) (p : Point) : Decidable (inDomain w h p) := by
  unfold inDomain
  exact inferInstance

instance decBboxIs (ct : List Point) (x0 x1 y0 y1 : Int) :
    Decidable (bboxIs ct x0 x1 y0 y1) := by
  unfold bboxIs
  exact inferInstance

instance decCircleBBoxInDomain (x y r : Int) (w h : Nat) :
    Decidable (circleBBoxInDomain x y r w h) := by
  unfold circleBBoxInDomain
  exact inferInstance

/-- A fresh parameter context: counter 0, debug off, nothing drawn. -/
def params0 : Params := ⟨0, none, []⟩

/-- A parameter context with debug mode "print" active. -/
def paramsP : Params := ⟨0, some DebugMode.print, []⟩

/-- A 10 × 10 all-zero reference image. -/
def img10 : Raster := ⟨10, 10, fun _ _ => 0⟩

/-- A 3 × 3 all-zero reference image. -/
def img3 : Raster := ⟨3, 3, fun _ _ => 0⟩

/-- A 4 × 4 all-zero reference image. -/
def img4 : Raster := ⟨4, 4, fun _ _ => 0⟩

/-- A 5-row, 8-column all-zero reference image (for the grid counterexample). -/
def imgM : Raster := ⟨5, 8, fun _ _ => 0⟩

/-- A 2 × 2 mask with one bright pixel: exactly two distinct intensity values. -/
def bin2 : Raster := ⟨2, 2, fun y x => if y = 0 && x = 0 then 255 else 0⟩

theorem maybeDraw_device (s : Params) (c : List (List Point)) :
    (maybeDraw s c).device = s.device := by
  unfold maybeDraw draw_roi
  split <;> rfl

theorem maybeDraw_debug (s : Params) (c : List (List Point)) :
    (maybeDraw s c).debug = s.debug := by
  unfold maybeDraw draw_roi
  split <;> rfl

theorem maybeDraw_drawLog_of_none (s : Params) (c : List (List Point))
    (h : s.debug = none) : (maybeDraw s c).drawLog = s.drawLog := by
  unfold maybeDraw
  simp [h]

theorem circle_device (s : Params) (x y r : Int) (img : Raster) :
    (circle s x y r img).1.device = s.device + 1 := by
  unfold circle
  split
  · rfl
  · simp [maybeDraw_device]

theorem circle_debug (s : Params) (x y r : Int) (img : Raster) :
    (circle s x y r img).1.debug = s.debug := by
  unfold circle
  split
  · rfl
  · simp [maybeDraw_debug]

theorem circle_drawLog_of_none (s : Params) (x y r : Int) (img : Raster)
    (h : s.debug = none) : (circle s x y r img).1.drawLog = s.drawLog := by
  unfold circle
  split
  · rfl
  · exact maybeDraw_drawLog_of_none _ _ h

theorem circle_error_kind (s : Params) (x y r : Int) (img : Raster) (e : RoiError)
    (h : (circle s x y r img).2 = Except.error e) : e = RoiError.outOfBounds := by
  unfold circle at h
  split at h
  · exact (Except.error.injEq _ _).mp h.symm
  · exact absurd h (by simp)

theorem rectangle_device (s : Params) (x y h w : Int) (img : Raster) :
    (rectangle s x y h w img).1.device = s.device + 1 := by
  unfold rectangle
  split
  · rfl
  · simp [maybeDraw_device]

theorem from_binary_image_device (s : Params) (bin img : Raster) :
    (from_binary_image s bin img).1.device = s.device + 1 := by
  unfold from_binary_image
  split
  · rfl
  · simp [maybeDraw_device]

theorem ellipse_device (s : Params) (x y r1 r2 angle : Int) (img : Raster)
    (ellPix : Int → Int → Int → Int → Int → Nat → Nat → Bool) :
    (ellipse s x y r1 r2 angle img ellPix).1.device = s.device + 1 := by
  simp only [ellipse]
  split
  · rfl
  · simp [maybeDraw_device]

theorem multiLoop_state (img : Raster) (radius : Int) (centers : List (Int × Int)) :
    ∀ (s : Params) (bin : Raster) (rc : List (List (List Point))) (rh : List (List Hier4))
      (rc1 : Option (List (List Point))),
      s.device ≤ (multiLoop img radius centers s bin rc rh rc1).1.device ∧
      (multiLoop img radius centers s bin rc rh rc1).1.debug = s.debug ∧
      (s.debug = none →
        (multiLoop img radius centers s bin rc rh rc1).1.drawLog = s.drawLog) ∧
      (∀ out, (multiLoop img radius centers s bin rc rh rc1).2 = Except.ok out →
        (multiLoop img radius centers s bin rc rh rc1).1.device = s.device + centers.length) ∧
      (∀ e, (multiLoop img radius centers s bin rc rh rc1).2 = Except.error e →
        e = RoiError.outOfBounds ∧
        s.device + 1 ≤ (multiLoop img radius centers s bin rc rh rc1).1.device) := by
  induction centers with
  | nil =>
    intro s bin rc rh rc1
    refine ⟨le_refl _, rfl, fun _ => rfl, fun out _ => by simp [multiLoop], fun e he => ?_⟩
    simp [multiLoop] at he
  | cons xy rest ih =>
    intro s bin rc rh rc1
    have hdev := circle_device s xy.1 xy.2 radius img
    have hdbg := circle_debug s xy.1 xy.2 radius img
    have hlog := circle_drawLog_of_none s xy.1 xy.2 radius img
    have herr := circle_error_kind s xy.1 xy.2 radius img
    simp only [multiLoop]
    rcases hc : circle s xy.1 xy.2 radius img with ⟨s', r⟩
    rw [hc] at hdev hdbg hlog herr
    simp only at hdev hdbg hlog herr
    cases r with
    | error e =>
      dsimp only
      exact ⟨by omega, hdbg, hlog, fun out hout => by simp at hout,
        fun e' he' => ⟨herr e' (by simpa using he'), by omega⟩⟩
    | ok indiv =>
      dsimp only
      obtain ⟨ih1, ih2, ih3, ih4, ih5⟩ := ih s' (drawCircle bin xy.1 xy.2 radius)
        (rc ++ [(findContours (drawCircle bin xy.1 xy.2 radius) RetrMode.extOnly).1])
        (rh ++ [(findContours (drawCircle bin xy.1 xy.2 radius) RetrMode.extOnly).2])
        (some (findContours (drawCircle bin xy.1 xy.2 radius) RetrMode.tree).1)
      refine ⟨by omega, by rw [ih2, hdbg], fun h => ?_, fun out hout => ?_, fun e he => ?_⟩
      · rw [ih3 (by rw [hdbg]; exact h), hlog h]
      · have h4 := ih4 out hout
        simp only [List.length_cons]
        omega
      · obtain ⟨hk, hge⟩ := ih5 e he
        exact ⟨hk, by omega⟩

theorem finishMulti_state (s : Params) (d : Option DebugMode)
    (rc : List (List (List Point))) (rh : List (List Hier4))
    (rc1 : Option (List (List Point))) :
    (finishMulti s d rc rh rc1).1.device = s.device ∧
    (finishMulti s d rc rh rc1).1.debug = d ∧
    (∀ out, (finishMulti s d rc rh rc1).2 = Except.ok out → out = (rc, rh) ∧
      (finishMulti s d rc rh rc1).1.drawLog.length =
        s.drawLog.length + (if d = none then 0 else 1)) ∧
    (∀ e, (finishMulti s d rc rh rc1).2 = Except.error e → e = RoiError.nameErr ∧
      (finishMulti s d rc rh rc1).1.drawLog = s.drawLog) := by
  unfold finishMulti draw_roi
  dsimp only
  split
  · simp_all
  · cases rc1 with
    | none => simp_all
    | some c1 => simp_all

theorem runMulti_state (s : Params) (d : Option DebugMode) (img : Raster) (radius : Int)
    (centers : List (Int × Int)) :
    s.device ≤ (runMulti s d img radius centers).1.device ∧
    (∀ out, (runMulti s d img radius centers).2 = Except.ok out →
      (runMulti s d img radius centers).1.device = s.device + centers.length ∧
      (runMulti s d img radius centers).1.debug = d ∧
      (s.debug = none → (runMulti s d img radius centers).1.drawLog.length =
        s.drawLog.length + (if d = none then 0 else 1))) ∧
    (∀ e, (runMulti s d img radius centers).2 = Except.error e →
      (e = RoiError.outOfBounds ∧ (runMulti s d img radius centers).1.debug = s.debug ∧
        s.device + 1 ≤ (runMulti s d img radius centers).1.device) ∨
      (e = RoiError.nameErr ∧ (runMulti s d img radius centers).1.debug = d)) := by
  obtain ⟨l1, l2, l3, l4, l5⟩ :=
    multiLoop_state img radius centers s (zeroRaster img.height img.width) [] [] none
  unfold runMulti
  rcases hm : multiLoop img radius centers s (zeroRaster img.height img.width) [] [] none
    with ⟨s', r⟩
  rw [hm] at l1 l2 l3 l4 l5
  simp only at l1 l2 l3 l4 l5
  cases r with
  | error e =>
    dsimp only
    refine ⟨l1, fun out hout => by simp at hout, fun e' he' => ?_⟩
    have he : e = e' := by simpa using he'
    subst he
    obtain ⟨hk, hge⟩ := l5 e rfl
    exact Or.inl ⟨hk, l2, hge⟩
  | ok triple =>
    rcases triple with ⟨rc, rh, rc1⟩
    dsimp only
    obtain ⟨f1, f2, f3, f4⟩ := finishMulti_state s' d rc rh rc1
    have hdev : s'.device = s.device + centers.length := l4 _ rfl
    refine ⟨by omega, fun out hout => ?_, fun e he => ?_⟩
    · obtain ⟨-, hlen⟩ := f3 out hout
      exact ⟨by omega, f2, fun hnone => by rw [hlen, l3 hnone]⟩
    · obtain ⟨hk, -⟩ := f4 e he
      exact Or.inr ⟨hk, f2⟩

theorem intRange_length (n : Int) : (intRange n).length = n.toNat := by
  unfold intRange
  exact (List.length_map _ _).trans (List.length_range _)

theorem intRange_eq_nil_iff (n : Int) : intRange n = [] ↔ n.toNat = 0 := by
  rw [← List.length_eq_zero, intRange_length]

theorem length_flatMap_const {α β : Type} (l : List α) (f : α → List β) (k : Nat)
    (h : ∀ a ∈ l, (f a).length = k) : (l.flatMap f).length = l.length * k := by
  induction l with
  | nil => simp
  | cons a t ih =>
    rw [List.flatMap_cons, List.length_append, h a (by simp),
      ih (fun b hb => h b (by simp [hb])), List.length_cons]
    ring

theorem gridCenters_length (c sp : Int × Int) (n m : Int) :
    (gridCenters c sp n m).length = n.toNat * m.toNat := by
  unfold gridCenters
  rw [length_flatMap_const _ _ m.toNat
    (fun i _ => (List.length_map _ _).trans (intRange_length m)), intRange_length]

theorem multi_state (s : Params) (img : Raster) (coord : CoordArg) (radius : Int)
    (spacing : Option (Int × Int)) (nrows ncols : Option Int) :
    s.device + 1 ≤ (multi s img coord radius spacing nrows ncols).1.device ∧
    (∀ out, (multi s img coord radius spacing nrows ncols).2 = Except.ok out →
      (multi s img coord radius spacing nrows ncols).1.debug = s.debug ∧
      (multi s img coord radius spacing nrows ncols).1.drawLog.length =
        s.drawLog.length + (if s.debug = none then 0 else 1) ∧
      (∀ l, coord = CoordArg.lst l →
        (multi s img coord radius spacing nrows ncols).1.device = s.device + 1 + l.length) ∧
      (∀ c, coord = CoordArg.tup c →
        (multi s img coord radius spacing nrows ncols).1.device =
          s.device + 1 + (nrows.getD 0).toNat * (ncols.getD 0).toNat)) ∧
    (∀ e, (multi s img coord radius spacing nrows ncols).2 = Except.error e →
      (e ≠ RoiError.nameErr → (multi s img coord radius spacing nrows ncols).1.debug = none) ∧
      (e = RoiError.badConfig →
        (multi s img coord radius spacing nrows ncols).1.device = s.device + 1) ∧
      (e = RoiError.outOfBounds →
        s.device + 2 ≤ (multi s img coord radius spacing nrows ncols).1.device)) := by
  cases coord with
  | tup c =>
    unfold multi
    dsimp only
    split
    next hsome =>
      split
      next hrows =>
        obtain ⟨r1, r2, r3⟩ := runMulti_state ⟨s.device + 1, none, s.drawLog⟩ s.debug img radius []
        dsimp only at r1 r2 r3
        refine ⟨r1, fun out hout => ?_, fun e he => ?_⟩
        · obtain ⟨hdev, hdbg, hlog⟩ := r2 out hout
          rw [intRange_eq_nil_iff] at hrows
          refine ⟨hdbg, hlog rfl, fun l hl => by simp at hl, fun c' _ => ?_⟩
          rw [hdev, hrows]
          simp
        · rcases r3 e he with ⟨hk, hdbg, hge⟩ | ⟨hk, hdbg⟩
          · subst hk
            exact ⟨fun _ => hdbg, fun hb => by simp at hb, fun _ => by omega⟩
          · subst hk
            exact ⟨fun hne => absurd rfl hne, fun hb => by simp at hb, fun hb => by simp at hb⟩
      next hrows =>
        cases spacing with
        | none =>
          dsimp only
          refine ⟨le_refl _, fun out hout => by simp at hout, fun e he => ?_⟩
          have he' : RoiError.noneSubscript = e := by simpa using he
          subst he'
          exact ⟨fun _ => rfl, fun hb => by simp at hb, fun hb => by simp at hb⟩
        | some sp =>
          dsimp only
          obtain ⟨r1, r2, r3⟩ := runMulti_state ⟨s.device + 1, none, s.drawLog⟩ s.debug img radius
            (gridCenters c sp (nrows.getD 0) (ncols.getD 0))
          dsimp only at r1 r2 r3
          refine ⟨r1, fun out hout => ?_, fun e he => ?_⟩
          · obtain ⟨hdev, hdbg, hlog⟩ := r2 out hout
            rw [gridCenters_length] at hdev
            exact ⟨hdbg, hlog rfl, fun l hl => by simp at hl, fun c' _ => by omega⟩
          · rcases r3 e he with ⟨hk, hdbg, hge⟩ | ⟨hk, hdbg⟩
            · subst hk
              exact ⟨fun _ => hdbg, fun hb => by simp at hb, fun _ => by omega⟩
            · subst hk
              exact ⟨fun hne => absurd rfl hne, fun hb => by simp at hb, fun hb => by simp at hb⟩
    next hnone =>
      refine ⟨le_refl _, fun out hout => by simp at hout, fun e he => ?_⟩
      have he' : RoiError.badConfig = e := by simpa using he
      subst he'
      exact ⟨fun _ => rfl, fun _ => rfl, fun hb => by simp at hb⟩
  | lst l =>
    unfold multi
    dsimp only
    split
    next hsome =>
      refine ⟨le_refl _, fun out hout => by simp at hout, fun e he => ?_⟩
      have he' : RoiError.badConfig = e := by simpa using he
      subst he'
      exact ⟨fun _ => rfl, fun _ => rfl, fun hb => by simp at hb⟩
    next hnone =>
      obtain ⟨r1, r2, r3⟩ := runMulti_state ⟨s.device + 1, none, s.drawLog⟩ s.debug img radius l
      dsimp only at r1 r2 r3
      refine ⟨r1, fun out hout => ?_, fun e he => ?_⟩
      · obtain ⟨hdev, hdbg, hlog⟩ := r2 out hout
        refine ⟨hdbg, hlog rfl, fun l' hl => ?_, fun c' hc => by simp at hc⟩
        have : l = l' := by simpa using hl
        subst this
        omega
      · rcases r3 e he with ⟨hk, hdbg, hge⟩ | ⟨hk, hdbg⟩
        · subst hk
          exact ⟨fun _ => hdbg, fun hb => by simp at hb, fun _ => by omega⟩
        · subst hk
          exact ⟨fun hne => absurd rfl hne, fun hb => by simp at hb, fun hb => by simp at hb⟩

theorem mem_points {m : Raster} {p : Nat × Nat} (hp : p ∈ m.points) :
    p.1 < m.width ∧ p.2 < m.height := by
  unfold Raster.points at hp
  simp only [List.mem_flatMap, List.mem_map, List.mem_filter, List.mem_range] at hp
  obtain ⟨y, hy, x, ⟨hx, -⟩, rfl⟩ := hp
  exact ⟨hx, hy⟩

theorem grow_subset {pts cur : List (Nat × Nat)} {q : Nat × Nat} (hq : q ∈ grow pts cur) :
    q ∈ cur ∨ q ∈ pts := by
  unfold grow at hq
  rcases List.mem_append.mp hq with h | h
  · exact Or.inl h
  · exact Or.inr (List.mem_filter.mp h).1

theorem iterate_grow_subset (pts : List (Nat × Nat)) :
    ∀ (n : Nat) (cur : List (Nat × Nat)), ∀ q ∈ (grow pts)^[n] cur, q ∈ cur ∨ q ∈ pts := by
  intro n
  induction n with
  | zero => exact fun cur q hq => Or.inl hq
  | succ k ih =>
    intro cur q hq
    rw [Function.iterate_succ_apply] at hq
    rcases ih (grow pts cur) q hq with h | h
    · exact grow_subset h
    · exact Or.inr h

theorem reachFrom_subset {pts : List (Nat × Nat)} {p q : Nat × Nat}
    (hq : q ∈ reachFrom pts p) : q = p ∨ q ∈ pts := by
  rcases iterate_grow_subset pts pts.length [p] q hq with h | h
  · exact Or.inl (by simpa using h)
  · exact Or.inr h

theorem componentsGo_subset (pts : List (Nat × Nat)) :
    ∀ (rest seen : List (Nat × Nat)), (∀ a ∈ rest, a ∈ pts) →
      ∀ comp ∈ componentsGo pts rest seen, ∀ q ∈ comp, q ∈ pts := by
  intro rest
  induction rest with
  | nil =>
    intro seen _ comp hcomp
    simp [componentsGo] at hcomp
  | cons p rest ih =>
    intro seen h comp hcomp
    unfold componentsGo at hcomp
    split at hcomp
    · exact ih seen (fun a ha => h a (by simp [ha])) comp hcomp
    · rcases List.mem_cons.mp hcomp with rfl | hcomp
      · intro q hq
        rcases reachFrom_subset hq with rfl | hq
        · exact h q (by simp)
        · exact hq
      · exact ih (seen ++ reachFrom pts p) (fun a ha => h a (by simp [ha])) comp hcomp

theorem components_subset {pts comp : List (Nat × Nat)} (hc : comp ∈ components pts)
    {q : Nat × Nat} (hq : q ∈ comp) : q ∈ pts :=
  componentsGo_subset pts pts [] (fun _ ha => ha) comp hc q hq

theorem findContours_point_mem {m : Raster} {mode : RetrMode} {ct : List Point} {p : Point}
    (hct : ct ∈ (findContours m mode).1) (hp : p ∈ ct) :
    0 ≤ p.1 ∧ p.1 < (m.width : Int) ∧ 0 ≤ p.2 ∧ p.2 < (m.height : Int) := by
  unfold findContours at hct
  dsimp only at hct
  rw [List.mem_map] at hct
  obtain ⟨comp, hcomp, rfl⟩ := hct
  rw [List.mem_map] at hp
  obtain ⟨q, hq, rfl⟩ := hp
  have hqpts : q ∈ m.points := components_subset hcomp (List.mem_filter.mp hq).1
  obtain ⟨hx, hy⟩ := mem_points hqpts
  refine ⟨Int.ofNat_nonneg _, ?_, Int.ofNat_nonneg _, ?_⟩ <;> dsimp only <;>
    rw [Int.ofNat_eq_coe] <;> omega

theorem findContours_hier_length (m : Raster) (mode : RetrMode) :
    (findContours m mode).2.length = (findContours m mode).1.length := by
  unfold findContours
  dsimp only
  rw [List.length_map, List.length_range]

theorem rectangle_ok_shape (s : Params) (x y h w : Int) (img : Raster) (s' : Params)
    (c : List (List Point)) (hier : List Hier4)
    (hok : rectangle s x y h w img = (s', Except.ok (c, hier))) :
    ¬(x < 0 ∨ y < 0 ∨ x + w > (img.width : Int) ∨ y + h > (img.height : Int)) ∧
    c = [[(x, y), (x, y + h - 1), (x + w - 1, y + h - 1), (x + w - 1, y)]] ∧
    hier = [(-1, -1, -1, -1)] := by
  unfold rectangle at hok
  dsimp only at hok
  split at hok
  · simp at hok
  · next hcond =>
    simp only [Prod.mk.injEq, Except.ok.injEq] at hok
    exact ⟨hcond, hok.2.1.symm, hok.2.2.symm⟩

theorem circle_ok_shape (s : Params) (x y r : Int) (img : Raster) (s' : Params)
    (c : List (List Point)) (hier : List Hier4)
    (hok : circle s x y r img = (s', Except.ok (c, hier))) :
    ¬(x - r < 0 ∨ x + r > (img.width : Int) ∨ y - r < 0 ∨ y + r > (img.height : Int)) ∧
    c = (findContours (drawCircle (zeroRaster img.height img.width) x y r) RetrMode.tree).1 ∧
    hier = (findContours (drawCircle (zeroRaster img.height img.width) x y r) RetrMode.tree).2 := by
  unfold circle at hok
  dsimp only at hok
  split at hok
  · simp at hok
  · next hcond =>
    simp only [Prod.mk.injEq, Except.ok.injEq] at hok
    exact ⟨hcond, (congrArg Prod.fst hok.2).symm, (congrArg Prod.snd hok.2).symm⟩

theorem ellipse_ok_shape (s : Params) (x y r1 r2 angle : Int) (img : Raster)
    (ellPix : Int → Int → Int → Int → Int → Nat → Nat → Bool) (s' : Params)
    (c : List (List Point)) (hier : List Hier4)
    (hok : ellipse s x y r1 r2 angle img ellPix = (s', Except.ok (c, hier))) :
    c = (findContours ⟨img.height, img.width,
          fun py px => if ellPix x y r1 r2 angle py px then 255 else 0⟩ RetrMode.tree).1 ∧
    hier = (findContours ⟨img.height, img.width,
          fun py px => if ellPix x y r1 r2 angle py px then 255 else 0⟩ RetrMode.tree).2 := by
  unfold ellipse at hok
  dsimp only at hok
  split at hok
  · simp at hok
  · simp only [Prod.mk.injEq, Except.ok.injEq] at hok
    exact ⟨(congrArg Prod.fst hok.2).symm, (congrArg Prod.snd hok.2).symm⟩

/-- Whether a builder outcome is a success (used to state witnesses cheaply). -/
def isOkE {ε α : Type _} : Except ε α → Bool
  | Except.ok _ => true
  | Except.error _ => false

theorem exists_ok_of_isOkE {ε α : Type _} (x : Except ε α) (h : isOkE x = true) :
    ∃ out, x = Except.ok out := by
  cases x with
  | ok a => exact ⟨a, rfl⟩
  | error e => exact Bool.noConfusion h

/-- C2, counterexample: the rectangle x=5, y=5, h=2, w=0 on the 10×10 image passes the
bounds check and returns the contour [(5,5),(5,6),(4,6),(4,5)], whose bounding box is
[4,5] × [5,6] — not the claimed [x, x+w-1] × [y, y+h-1] = [5,4] × [5,6]. -/
theorem C2_rectangle_bbox_cex :
    (rectangle params0 5 5 2 0 img10).2 =
      Except.ok ([[(5, 5), (5, 6), (4, 6), (4, 5)]], [(-1, -1, -1, -1)]) ∧
    ¬ bboxIs [(5, 5), (5, 6), (4, 6), (4, 5)] 5 4 5 6 := by
  constructor
  · decide
  · decide

/-- C2 (amended): `rectangle` fails with the bounds error exactly when
x < 0 ∨ y < 0 ∨ x + w > width ∨ y + h > height; otherwise it returns exactly one
contour with the four vertices (x,y), (x,y+h-1), (x+w-1,y+h-1), (x+w-1,y) in that
order together with the single-entry hierarchy (-1,-1,-1,-1), and when additionally
w ≥ 1 and h ≥ 1 the contour's bounding box is exactly [x, x+w-1] × [y, y+h-1]. -/
theorem C2_rectangle_contract (s : Params) (x y h w : Int) (img : Raster) :
    ((rectangle s x y h w img).2 = Except.error RoiError.outOfBounds ↔
      (x < 0 ∨ y < 0 ∨ x + w > (img.width : Int) ∨ y + h > (img.height : Int))) ∧
    (¬(x < 0 ∨ y < 0 ∨ x + w > (img.width : Int) ∨ y + h > (img.height : Int)) →
      (rectangle s x y h w img).2 =
        Except.ok ([[(x, y), (x, y + h - 1), (x + w - 1, y + h - 1), (x + w - 1, y)]],
          [(-1, -1, -1, -1)]) ∧
      (1 ≤ w → 1 ≤ h →
        bboxIs [(x, y), (x, y + h - 1), (x + w - 1, y + h - 1), (x + w - 1, y)]
          x (x + w - 1) y (y + h - 1))) := by
  unfold rectangle
  dsimp only
  split
  next hcond => exact ⟨⟨fun _ => hcond, fun _ => rfl⟩, fun hn => absurd hcond hn⟩
  next hcond =>
    refine ⟨⟨fun hfalse => absurd hfalse (by simp), fun hcnd => absurd hcnd hcond⟩,
      fun _ => ⟨rfl, fun hw hh => ?_⟩⟩
    unfold bboxIs
    refine ⟨?_, ⟨(x, y), by simp, rfl⟩, ⟨(x + w - 1, y), by simp, rfl⟩,
      ⟨(x, y), by simp, rfl⟩, ⟨(x, y + h - 1), by simp, rfl⟩⟩
    intro p hp
    simp only [List.mem_cons, List.not_mem_nil, or_false] at hp
    rcases hp with rfl | rfl | rfl | rfl <;> dsimp only <;> omega

/-- C2, witness: the valid rectangle x=1, y=1, h=2, w=3 on the 10×10 image. -/
theorem C2_rectangle_contract_witness :
    (rectangle params0 1 1 2 3 img10).2 =
      Except.ok ([[(1, 1), (1, 1 + 2 - 1), (1 + 3 - 1, 1 + 2 - 1), (1 + 3 - 1, 1)]],
        [(-1, -1, -1, -1)]) ∧
    bboxIs [(1, 1), (1, 1 + 2 - 1), (1 + 3 - 1, 1 + 2 - 1), (1 + 3 - 1, 1)]
      1 (1 + 3 - 1) 1 (1 + 2 - 1) := by
  have h := (C2_rectangle_contract params0 1 1 2 3 img10).2 (by decide)
  exact ⟨h.1, h.2 (by decide) (by decide)⟩

/-- C3, counterexample: on the 10×10 image the circle x=5, y=5, r=5 has bounding box
[0,10] × [0,10], not contained in the valid domain [0,10) × [0,10), yet the call does
not fail: the builder's check admits x + r = width. -/
theorem C3_circle_halfopen_cex :
    ¬ circleBBoxInDomain 5 5 5 10 10 ∧
    (circle params0 5 5 5 img10).2 ≠ Except.error RoiError.outOfBounds := by
  constructor
  · decide
  · decide

/-- C3 (amended): the circle builder fails with the bounds error iff its bounding box
[x-r,x+r] × [y-r,y+r] is not contained in the closed region [0,width] × [0,height]
(so a circle touching the right or bottom extent is admitted); otherwise it succeeds
and returns a contour/hierarchy pair. -/
theorem C3_circle_bounds_contract (s : Params) (x y r : Int) (img : Raster) :
    ((circle s x y r img).2 = Except.error RoiError.outOfBounds ↔
      (x - r < 0 ∨ x + r > (img.width : Int) ∨ y - r < 0 ∨ y + r > (img.height : Int))) ∧
    (¬(x - r < 0 ∨ x + r > (img.width : Int) ∨ y - r < 0 ∨ y + r > (img.height : Int)) →
      ∃ out, (circle s x y r img).2 = Except.ok out) := by
  unfold circle
  dsimp only
  split
  next hcond => exact ⟨⟨fun _ => hcond, fun _ => rfl⟩, fun hn => absurd hcond hn⟩
  next hcond =>
    exact ⟨⟨fun hfalse => absurd hfalse (by simp), fun hcnd => absurd hcnd hcond⟩,
      fun _ => ⟨_, rfl⟩⟩

/-- C3, witness: the circle x=1, y=1, r=1 on the 3×3 image is in bounds and succeeds. -/
theorem C3_circle_bounds_contract_witness :
    ∃ out, (circle params0 1 1 1 img3).2 = Except.ok out :=
  (C3_circle_bounds_contract params0 1 1 1 img3).2 (by decide)

/-- C4: `from_binary_image` fails with the invalid-input error iff the number of
distinct intensity values of the mask is not exactly two; on success the returned
hierarchy's length equals the returned contour set's length. -/
theorem C4_from_binary_image_contract (s : Params) (bin img : Raster) :
    ((from_binary_image s bin img).2 = Except.error RoiError.notBinary ↔
      bin.values.length ≠ 2) ∧
    (∀ c hier, (from_binary_image s bin img).2 = Except.ok (c, hier) →
      hier.length = c.length) := by
  unfold from_binary_image
  dsimp only
  split
  next hcond =>
    exact ⟨⟨fun _ => hcond, fun _ => rfl⟩, fun c hier hok => by simp at hok⟩
  next hcond =>
    refine ⟨⟨fun hfalse => absurd hfalse (by simp), fun hcnd => absurd hcnd hcond⟩,
      fun c hier hok => ?_⟩
    simp only [Except.ok.injEq] at hok
    have hc : c = (findContours bin RetrMode.tree).1 := by rw [hok]
    have hh : hier = (findContours bin RetrMode.tree).2 := by rw [hok]
    rw [hc, hh]
    exact findContours_hier_length bin RetrMode.tree

/-- C4, witness: the 2×2 mask with one bright pixel has two distinct values; the call
succeeds with one contour and a one-entry hierarchy. -/
theorem C4_from_binary_image_contract_witness :
    [((-1 : Int), (-1 : Int), (-1 : Int), (-1 : Int))].length =
      [[((0 : Int), (0 : Int))]].length :=
  (C4_from_binary_image_contract params0 bin2 img3).2 [[(0, 0)]] [(-1, -1, -1, -1)]
    (by decide)

/-- C5, counterexample: the degenerate rectangle x=0, y=0, h=1, w=0 on the 10×10
image passes the bounds check but its contour contains the point (-1, 0), which lies
outside the valid coordinate domain [0,10) × [0,10). -/
theorem C5_degenerate_rectangle_cex :
    (rectangle params0 0 0 1 0 img10).2 =
      Except.ok ([[(0, 0), (0, 0), (-1, 0), (-1, 0)]], [(-1, -1, -1, -1)]) ∧
    ((-1 : Int), (0 : Int)) ∈ [((0 : Int), (0 : Int)), (0, 0), (-1, 0), (-1, 0)] ∧
    ¬ inDomain 10 10 (-1, 0) := by
  refine ⟨by decide, by decide, by decide⟩

/-- C5 (amended): every successful parametric builder call returns contours whose
points lie in [0,width) × [0,height): unconditionally for circle and ellipse, whose
contours are extracted from an image-shaped raster; for rectangle under the side
conditions 1 ≤ w ∨ (0 ≤ x+w-1 ∧ x+1 ≤ width) and 1 ≤ h ∨ (0 ≤ y+h-1 ∧ y+1 ≤ height)
(met by every rectangle with w ≥ 1 and h ≥ 1, but violated by degenerate ones at the
image border such as x=0 with w=0, which emit coordinate -1). -/
theorem C5_roi_points_in_domain :
    (∀ s x y h w img s' c hier, rectangle s x y h w img = (s', Except.ok (c, hier)) →
      (1 ≤ w ∨ (0 ≤ x + w - 1 ∧ x + 1 ≤ (img.width : Int))) →
      (1 ≤ h ∨ (0 ≤ y + h - 1 ∧ y + 1 ≤ (img.height : Int))) →
      ∀ ct ∈ c, ∀ p ∈ ct, inDomain img.width img.height p) ∧
    (∀ s x y r img s' c hier, circle s x y r img = (s', Except.ok (c, hier)) →
      ∀ ct ∈ c, ∀ p ∈ ct, inDomain img.width img.height p) ∧
    (∀ s x y r1 r2 angle ellPix img s' c hier,
      ellipse s x y r1 r2 angle img ellPix = (s', Except.ok (c, hier)) →
      ∀ ct ∈ c, ∀ p ∈ ct, inDomain img.width img.height p) := by
  refine ⟨?_, ?_, ?_⟩
  · intro s x y h w img s' c hier hok hw hh ct hct p hp
    obtain ⟨hcond, hc, -⟩ := rectangle_ok_shape s x y h w img s' c hier hok
    push_neg at hcond
    obtain ⟨hx0, hy0, hxw, hyh⟩ := hcond
    subst hc
    simp only [List.mem_singleton] at hct
    subst hct
    simp only [List.mem_cons, List.not_mem_nil, or_false] at hp
    unfold inDomain
    rcases hw with hw | ⟨hw1, hw2⟩ <;> rcases hh with hh | ⟨hh1, hh2⟩ <;>
      rcases hp with rfl | rfl | rfl | rfl <;> dsimp only <;> omega
  · intro s x y r img s' c hier hok ct hct p hp
    obtain ⟨-, hc, -⟩ := circle_ok_shape s x y r img s' c hier hok
    subst hc
    exact @findContours_point_mem (drawCircle (zeroRaster img.height img.width) x y r)
      RetrMode.tree ct p hct hp
  · intro s x y r1 r2 angle ellPix img s' c hier hok ct hct p hp
    obtain ⟨hc, -⟩ := ellipse_ok_shape s x y r1 r2 angle img ellPix s' c hier hok
    subst hc
    exact @findContours_point_mem
      ⟨img.height, img.width, fun py px => if ellPix x y r1 r2 angle py px then 255 else 0⟩
      RetrMode.tree ct p hct hp

/-- C5, witness: the rectangle x=1, y=1, h=2, w=3 on the 10×10 image yields the
point (1,1), inside the domain. -/
theorem C5_roi_points_in_domain_witness : inDomain 10 10 (1, 1) :=
  C5_roi_points_in_domain.1 params0 1 1 2 3 img10 ⟨1, none, []⟩
    [[(1, 1), (1, 2), (3, 2), (3, 1)]] [(-1, -1, -1, -1)] (by decide)
    (Or.inl (by decide)) (Or.inl (by decide))
    [(1, 1), (1, 2), (3, 2), (3, 1)] (by decide) (1, 1) (by decide)

/-- C6: the device counter never decreases across any builder call; each of the four
single-shape builders increments it by exactly one (in particular every successful
call does); a successful multi call increments it by exactly 1 + the number of placed
circles — nrows*ncols in grid mode, the coordinate-list length in list mode. -/
theorem C6_device_counter (s : Params) (img : Raster) :
    (∀ bin, (from_binary_image s bin img).1.device = s.device + 1) ∧
    (∀ x y h w, (rectangle s x y h w img).1.device = s.device + 1) ∧
    (∀ x y r, (circle s x y r img).1.device = s.device + 1) ∧
    (∀ x y r1 r2 angle ellPix,
      (ellipse s x y r1 r2 angle img ellPix).1.device = s.device + 1) ∧
    (∀ coord radius spacing nrows ncols,
      s.device ≤ (multi s img coord radius spacing nrows ncols).1.device) ∧
    (∀ l radius spacing nrows ncols out,
      (multi s img (CoordArg.lst l) radius spacing nrows ncols).2 = Except.ok out →
      (multi s img (CoordArg.lst l) radius spacing nrows ncols).1.device =
        s.device + 1 + l.length) ∧
    (∀ c radius spacing n m out,
      (multi s img (CoordArg.tup c) radius spacing (some n) (some m)).2 = Except.ok out →
      (multi s img (CoordArg.tup c) radius spacing (some n) (some m)).1.device =
        s.device + 1 + n.toNat * m.toNat) := by
  refine ⟨fun bin => from_binary_image_device s bin img,
    fun x y h w => rectangle_device s x y h w img,
    fun x y r => circle_device s x y r img,
    fun x y r1 r2 angle ellPix => ellipse_device s x y r1 r2 angle img ellPix,
    fun coord radius spacing nrows ncols => ?_,
    fun l radius spacing nrows ncols out hout => ?_,
    fun c radius spacing n m out hout => ?_⟩
  · have h := (multi_state s img coord radius spacing nrows ncols).1
    omega
  · obtain ⟨-, r2, -⟩ := multi_state s img (CoordArg.lst l) radius spacing nrows ncols
    obtain ⟨-, -, hl, -⟩ := r2 out hout
    exact hl l rfl
  · obtain ⟨-, r2, -⟩ := multi_state s img (CoordArg.tup c) radius spacing (some n) (some m)
    obtain ⟨-, -, -, hg⟩ := r2 out hout
    simpa using hg c rfl

/-- C6, witness: a successful list-mode multi with one circle increments the counter
by 1 + 1. -/
theorem C6_device_counter_witness :
    (multi params0 img3 (CoordArg.lst [(1, 1)]) 1 none none none).1.device =
      params0.device + 1 + [((1 : Int), (1 : Int))].length := by
  obtain ⟨out, hout⟩ := exists_ok_of_isOkE
    (multi params0 img3 (CoordArg.lst [(1, 1)]) 1 none none none).2 (by decide)
  exact (C6_device_counter params0 img3).2.2.2.2.2.1 [(1, 1)] 1 none none none out hout

/-- C7, counterexample: a single coordinate tuple with nrows = 0 and ncols absent
does not raise the configuration error — Python truthiness (`0 and None` is `0`,
which `is not None`) selects grid mode, the loops run zero times, and the call
returns empty contour/hierarchy lists. -/
theorem C7_tuple_zero_rows_cex :
    (multi params0 img3 (CoordArg.tup (1, 1)) 1 none (some 0) none).2 =
      Except.ok ([], []) ∧
    Except.ok ([], []) ≠
      (Except.error RoiError.badConfig :
        Except RoiError (List (List (List Point)) × List (List Hier4))) := by
  constructor
  · decide
  · decide

/-- C7 (amended): multi raises the configuration error exactly when the type
dispatch matches neither branch. For a coordinate list this happens iff
`nrows and ncols` (Python truthiness) is non-None — in particular whenever both are
non-null. For a coordinate tuple it happens iff `nrows and ncols` is None, i.e. iff
nrows is null, or nrows is non-null and nonzero and ncols is null; in particular a
tuple with nrows = some 0 never raises it and (with debug off) succeeds with empty
output whatever ncols and spacing are. -/
theorem C7_multi_mode_dispatch (s : Params) (img : Raster) (radius : Int)
    (spacing : Option (Int × Int)) (nrows ncols : Option Int) :
    (∀ l, (multi s img (CoordArg.lst l) radius spacing nrows ncols).2 =
        Except.error RoiError.badConfig ↔ (pyAnd nrows ncols).isSome = true) ∧
    (∀ a b l, (multi s img (CoordArg.lst l) radius spacing (some a) (some b)).2 =
        Except.error RoiError.badConfig) ∧
    (∀ c, (multi s img (CoordArg.tup c) radius spacing nrows ncols).2 =
        Except.error RoiError.badConfig ↔ pyAnd nrows ncols = none) ∧
    (pyAnd nrows ncols = none ↔
      (nrows = none ∨ ∃ k, nrows = some k ∧ k ≠ 0 ∧ ncols = none)) ∧
    (∀ c, s.debug = none →
      (multi s img (CoordArg.tup c) radius spacing (some 0) ncols).2 =
        Except.ok ([], [])) := by
  have hlst : ∀ (nr nc : Option Int) l,
      (multi s img (CoordArg.lst l) radius spacing nr nc).2 =
        Except.error RoiError.badConfig ↔ (pyAnd nr nc).isSome = true := by
    intro nr nc l
    unfold multi
    dsimp only
    split
    next hsome => exact ⟨fun _ => hsome, fun _ => rfl⟩
    next hsome =>
      refine ⟨fun h => ?_, fun h => absurd h hsome⟩
      rcases (runMulti_state ⟨s.device + 1, none, s.drawLog⟩ s.debug img radius l).2.2
        RoiError.badConfig h with ⟨hk, -⟩ | ⟨hk, -⟩ <;> exact RoiError.noConfusion hk
  have htup : ∀ c, (multi s img (CoordArg.tup c) radius spacing nrows ncols).2 =
      Except.error RoiError.badConfig ↔ pyAnd nrows ncols = none := by
    intro c
    unfold multi
    dsimp only
    split
    next hsome =>
      rw [Option.isSome_iff_exists] at hsome
      obtain ⟨v, hv⟩ := hsome
      split
      next hrows =>
        refine ⟨fun h => ?_, fun h => by rw [h] at hv; cases hv⟩
        rcases (runMulti_state ⟨s.device + 1, none, s.drawLog⟩ s.debug img radius []).2.2
          RoiError.badConfig h with ⟨hk, -⟩ | ⟨hk, -⟩ <;> exact RoiError.noConfusion hk
      next hrows =>
        cases spacing with
        | none =>
          refine ⟨fun h => ?_, fun h => by rw [h] at hv; cases hv⟩
          exact RoiError.noConfusion ((Except.error.injEq _ _).mp h)
        | some sp =>
          refine ⟨fun h => ?_, fun h => by rw [h] at hv; cases hv⟩
          rcases (runMulti_state ⟨s.device + 1, none, s.drawLog⟩ s.debug img radius
            (gridCenters c sp (nrows.getD 0) (ncols.getD 0))).2.2
            RoiError.badConfig h with ⟨hk, -⟩ | ⟨hk, -⟩ <;> exact RoiError.noConfusion hk
    next hsome =>
      have hnone : pyAnd nrows ncols = none := by
        cases hpa : pyAnd nrows ncols with
        | none => rfl
        | some v => rw [hpa] at hsome; exact absurd rfl hsome
      exact ⟨fun _ => hnone, fun _ => rfl⟩
  refine ⟨hlst nrows ncols, fun a b l => ?_, htup, ?_, fun c hdbg => ?_⟩
  · rw [hlst (some a) (some b) l]
    unfold pyAnd truthy
    split <;> rfl
  · unfold pyAnd truthy
    cases nrows with
    | none => simp
    | some k =>
      by_cases hk : k = 0
      · subst hk
        simp
      · simp [hk]
  · unfold multi
    dsimp only
    rw [if_pos (by rfl), if_pos (by rfl)]
    unfold runMulti multiLoop finishMulti
    dsimp only
    rw [if_pos hdbg]

/-- C7, witness: a coordinate list with nrows = ncols = 2 raises the configuration
error; a coordinate tuple with nrows = 0 and ncols absent succeeds with empty
output. -/
theorem C7_multi_mode_dispatch_witness :
    (multi params0 img3 (CoordArg.lst [(1, 1)]) 1 none (some 2) (some 2)).2 =
      Except.error RoiError.badConfig ∧
    (multi params0 img3 (CoordArg.tup (1, 1)) 1 none (some 0) (some 7)).2 =
      Except.ok ([], []) := by
  constructor
  · exact (C7_multi_mode_dispatch params0 img3 1 none (some 2) (some 2)).2.1 2 2 [(1, 1)]
  · exact (C7_multi_mode_dispatch params0 img3 1 none (some 2) (some 7)).2.2.2.2 (1, 1) rfl

/-- C8: a successful multi call restores params.debug to its pre-call value and
performs at most the single final combined draw — and none at all when the caller's
debug is off; the placement loop itself, run with debug suppressed, keeps debug
suppressed and never draws, so no intermediate circle placement triggers a draw. -/
theorem C8_multi_debug_suppressed (s : Params) (img : Raster) (coord : CoordArg)
    (radius : Int) (spacing : Option (Int × Int)) (nrows ncols : Option Int) :
    (∀ out, (multi s img coord radius spacing nrows ncols).2 = Except.ok out →
      (multi s img coord radius spacing nrows ncols).1.debug = s.debug ∧
      (multi s img coord radius spacing nrows ncols).1.drawLog.length =
        s.drawLog.length + (if s.debug = none then 0 else 1)) ∧
    (∀ centers s0 bin rc rh rc1, s0.debug = none →
      (multiLoop img radius centers s0 bin rc rh rc1).1.debug = none ∧
      (multiLoop img radius centers s0 bin rc rh rc1).1.drawLog = s0.drawLog) := by
  constructor
  · intro out hout
    obtain ⟨-, r2, -⟩ := multi_state s img coord radius spacing nrows ncols
    obtain ⟨h1, h2, -⟩ := r2 out hout
    exact ⟨h1, h2⟩
  · intro centers s0 bin rc rh rc1 h0
    obtain ⟨-, l2, l3, -⟩ := multiLoop_state img radius centers s0 bin rc rh rc1
    exact ⟨by rw [l2, h0], l3 h0⟩

/-- C8, witness: with debug "print" active, a successful one-circle list-mode multi
returns with debug restored to "print" and exactly one draw event added. -/
theorem C8_multi_debug_suppressed_witness :
    (multi paramsP img3 (CoordArg.lst [(1, 1)]) 1 none none none).1.debug =
      paramsP.debug ∧
    (multi paramsP img3 (CoordArg.lst [(1, 1)]) 1 none none none).1.drawLog.length =
      paramsP.drawLog.length + (if paramsP.debug = none then 0 else 1) := by
  obtain ⟨out, hout⟩ := exists_ok_of_isOkE
    (multi paramsP img3 (CoordArg.lst [(1, 1)]) 1 none none none).2 (by decide)
  exact (C8_multi_debug_suppressed paramsP img3 (CoordArg.lst [(1, 1)]) 1
    none none none).1 out hout

/-- C9, counterexample: multi with grid 1×1 at coord (0,0) and radius 5 on the 3×3
image fails the inner circle's bounds check; the counter ends at params0.device + 2
(multi's own increment plus the failed circle's increment), not + 1 as claimed. -/
theorem C9_multi_double_increment_cex :
    (multi params0 img3 (CoordArg.tup (0, 0)) 5 (some (1, 1)) (some 1) (some 1)).2 =
      Except.error RoiError.outOfBounds ∧
    (multi params0 img3 (CoordArg.tup (0, 0)) 5 (some (1, 1)) (some 1) (some 1)).1.device ≠
      params0.device + 1 := by
  constructor
  · decide
  · decide

/-- C9 (amended): every builder increments the device counter before validating, so a
failing call never leaves the counter unchanged: the four single-shape builders leave
it incremented by exactly one on any failure; multi leaves it incremented by exactly
one on its configuration error, by at least one on any error, and by at least two
when it aborts because an inner circle placement is out of bounds. -/
theorem C9_device_incremented_on_error (s : Params) (img : Raster) :
    (∀ bin e, (from_binary_image s bin img).2 = Except.error e →
      (from_binary_image s bin img).1.device = s.device + 1) ∧
    (∀ x y h w e, (rectangle s x y h w img).2 = Except.error e →
      (rectangle s x y h w img).1.device = s.device + 1) ∧
    (∀ x y r e, (circle s x y r img).2 = Except.error e →
      (circle s x y r img).1.device = s.device + 1) ∧
    (∀ x y r1 r2 angle ellPix e, (ellipse s x y r1 r2 angle img ellPix).2 = Except.error e →
      (ellipse s x y r1 r2 angle img ellPix).1.device = s.device + 1) ∧
    (∀ coord radius spacing nrows ncols,
      ((multi s img coord radius spacing nrows ncols).2 = Except.error RoiError.badConfig →
        (multi s img coord radius spacing nrows ncols).1.device = s.device + 1) ∧
      (∀ e, (multi s img coord radius spacing nrows ncols).2 = Except.error e →
        s.device + 1 ≤ (multi s img coord radius spacing nrows ncols).1.device) ∧
      ((multi s img coord radius spacing nrows ncols).2 = Except.error RoiError.outOfBounds →
        s.device + 2 ≤ (multi s img coord radius spacing nrows ncols).1.device)) := by
  refine ⟨fun bin e _ => from_binary_image_device s bin img,
    fun x y h w e _ => rectangle_device s x y h w img,
    fun x y r e _ => circle_device s x y r img,
    fun x y r1 r2 angle ellPix e _ => ellipse_device s x y r1 r2 angle img ellPix,
    fun coord radius spacing nrows ncols => ?_⟩
  obtain ⟨r1, -, r3⟩ := multi_state s img coord radius spacing nrows ncols
  exact ⟨fun h => (r3 RoiError.badConfig h).2.1 rfl, fun e _ => r1,
    fun h => (r3 RoiError.outOfBounds h).2.2 rfl⟩

/-- C9, witness: a rectangle with x = -1 fails its bounds check yet increments the
counter; multi with mismatched mode inputs fails with the configuration error and
increments the counter by exactly one. -/
theorem C9_device_incremented_on_error_witness :
    (rectangle params0 (-1) 0 1 1 img3).1.device = params0.device + 1 ∧
    (multi params0 img3 (CoordArg.lst [(1, 1)]) 1 none (some 1) (some 1)).1.device =
      params0.device + 1 := by
  constructor
  · exact (C9_device_incremented_on_error params0 img3).2.1 (-1) 0 1 1
      RoiError.outOfBounds (by decide)
  · exact ((C9_device_incremented_on_error params0 img3).2.2.2.2
      (CoordArg.lst [(1, 1)]) 1 none (some 1) (some 1)).1 (by decide)

/-- C10: when multi aborts with the inner circle bounds error or the configuration
error — both raised after debug has been suppressed and before the restore — the
process-wide debug mode is left at none rather than restored. -/
theorem C10_multi_error_debug_off (s : Params) (img : Raster) (coord : CoordArg)
    (radius : Int) (spacing : Option (Int × Int)) (nrows ncols : Option Int) (e : RoiError)
    (he : (multi s img coord radius spacing nrows ncols).2 = Except.error e)
    (hkind : e = RoiError.outOfBounds ∨ e = RoiError.badConfig) :
    (multi s img coord radius spacing nrows ncols).1.debug = none := by
  obtain ⟨-, -, r3⟩ := multi_state s img coord radius spacing nrows ncols
  exact (r3 e he).1 (by rcases hkind with rfl | rfl <;> simp)

/-- C10, witness: starting from debug "print", a configuration-error multi call
leaves debug at none. -/
theorem C10_multi_error_debug_off_witness :
    (multi paramsP img3 (CoordArg.lst [(1, 1)]) 1 none (some 1) (some 1)).1.debug = none :=
  C10_multi_error_debug_off paramsP img3 (CoordArg.lst [(1, 1)]) 1 none (some 1) (some 1)
    RoiError.badConfig (by decide) (Or.inr rfl)

/-- C1 (evaluation at the failing input): multi in grid mode on the 5-row × 8-column
image with coord (2,2), radius 1, spacing (2,0), nrows 1, ncols 2 succeeds with
exactly nrows*ncols = 2 entries, but the second contour entry equals the external
extraction of the accumulated mask holding both circles (one merged 7-point
boundary) and differs from the extraction of the single circle centred at
(2 + 1*2, 2 + 0*0) = (4,2) that the claim specifies. -/
theorem C1_multi_entries_are_cumulative :
    (multi params0 imgM (CoordArg.tup (2, 2)) 1 (some (2, 0)) (some 1) (some 2)).2.map
      (fun out => (out.1.length, out.1.getD 1 [])) =
      Except.ok (2,
        (findContours (drawCircle (drawCircle (zeroRaster 5 8) 2 2 1) 4 2 1)
          RetrMode.extOnly).1) ∧
    (findContours (drawCircle (drawCircle (zeroRaster 5 8) 2 2 1) 4 2 1)
        RetrMode.extOnly).1 ≠
      (findContours (drawCircle (zeroRaster 5 8) 4 2 1) RetrMode.extOnly).1 := by
  constructor
  · decide
  · decide

end Roi
